import Mathlib

/-!
Verification development for the Persona-POC entity-management service.

The repository implements a durable entity store with an approval workflow
(`entityController`: createEntity, updateEntity, approveEntity, rejectEntity)
and a six-step wizard that assembles an entity inside an ephemeral cache
(`entityStepsController`: createEntityStep1 .. createEntityStep6,
getEntityProgress, cancelEntityCreation).  The definitions below are a
shallow embedding of those handlers: MongoDB is a list of entities, Redis is
an association list from string keys to values together with the TTL passed
at the last write, and each Express handler becomes a pure function from a
state and its request parameters to a result and a new state.  The
best-effort notification collaborator (sendApprovalEmail /
sendRejectionEmail) is modelled by a Boolean `emailOk` input whose only
effect is an entry in an email log, mirroring the try/catch in the source
that swallows notification failures.
-/

namespace Persona

/-- Entity approval status, from the `status` enum of `EntitySchema`
(`PENDING`, `APPROVED`, `REJECTED`, `UNDER_REVIEW`). -/
inductive Status
  | PENDING
  | APPROVED
  | REJECTED
  | UNDER_REVIEW
deriving DecidableEq, Repr

/-- Address subdocument (`IAddress`): all five fields required. -/
structure Address where
  street : String
  city : String
  state : String
  country : String
  postalCode : String
deriving DecidableEq, Repr

/-- Document metadata (`IDocument`).  The `type` enum is kept as a string;
dates are modelled as natural-number timestamps. -/
structure Doc where
  dtype : String
  filename : String
  originalName : String
  mimeType : String
  size : Nat
  path : String
  uploadedAt : Nat
deriving DecidableEq, Repr

/-- A durable entity (`IEntity`).  Mongo ObjectIds are modelled as naturals;
`additionalData` (Schema.Types.Mixed) is an opaque string payload. -/
structure Entity where
  id : Nat
  name : String
  identificationNumber : String
  inquiryId : String
  email : String
  phone : Option String := none
  dateOfBirth : Option Nat := none
  address : Address
  profilePhoto : Option Doc := none
  documents : List Doc := []
  status : Status := .PENDING
  approvedBy : Option Nat := none
  rejectedBy : Option Nat := none
  approvalDate : Option Nat := none
  rejectionDate : Option Nat := none
  approvalNotes : Option String := none
  rejectionReason : Option String := none
  createdBy : Option Nat := none
  additionalData : Option String := none
deriving DecidableEq, Repr

/-- In-progress wizard record held only in the cache under
`temp_entity:<tempId>`: a partial entity plus `step` and `completedSteps`,
exactly the object built by createEntityStep1 and mutated by steps 2-5. -/
structure TempRecord where
  name : String
  identificationNumber : String
  createdBy : Option Nat := none
  status : Status := .PENDING
  step : Nat
  completedSteps : List String
  email : Option String := none
  phone : Option String := none
  dateOfBirth : Option Nat := none
  address : Option Address := none
  profilePhoto : Option Doc := none
  documents : Option (List Doc) := none
deriving DecidableEq, Repr

/-- The payload handed to `Entity.create`: a loose object whose optional
fields may be absent, as assembled from `req.body` by createEntity or from
the temp record by createEntityStep6. -/
structure EntityData where
  name : String
  identificationNumber : String
  inquiryId : Option String := none
  email : Option String := none
  phone : Option String := none
  dateOfBirth : Option Nat := none
  address : Option Address := none
  profilePhoto : Option Doc := none
  documents : Option (List Doc) := none
  status : Option Status := none
  createdBy : Option Nat := none
  additionalData : Option String := none
deriving DecidableEq, Repr

/-- An update body for `updateEntity` (`PUT /api/entities/:id`): `req.body`
passed verbatim to `findByIdAndUpdate`.  Each present field overwrites the
stored one ($set semantics).  The validation middleware
(`updateEntityValidation`) only checks the listed fields and strips
nothing, so a `status` field supplied by the client is applied as-is. -/
structure UpdateBody where
  name : Option String := none
  email : Option String := none
  phone : Option String := none
  dateOfBirth : Option Nat := none
  address : Option Address := none
  status : Option Status := none
  additionalData : Option String := none
deriving DecidableEq, Repr

/-! ### The cache (Redis) as an association list with TTLs -/

/-- A cache of values of type `α`: key, value, and the TTL in seconds given
to the last `setCache` on that key. -/
abbrev KV (α : Type) : Type := List (String × α × Nat)

/-- `getCache key`. -/
def getK {α : Type} : KV α → String → Option α
  | [], _ => none
  | (k, v, _) :: rest, key => if k = key then some v else getK rest key

/-- `deleteCache key`. -/
def delK {α : Type} : KV α → String → KV α
  | [], _ => []
  | (k, v, t) :: rest, key =>
      if k = key then delK rest key else (k, v, t) :: delK rest key

/-- `setCache key value ttl`: overwrite the key. -/
def setK {α : Type} (c : KV α) (key : String) (v : α) (ttl : Nat) : KV α :=
  (key, v, ttl) :: delK c key

@[simp] theorem getK_nil {α : Type} (key : String) :
    getK ([] : KV α) key = none := rfl

@[simp] theorem getK_delK_same {α : Type} (c : KV α) (key : String) :
    getK (delK c key) key = none := by
  induction c with
  | nil => rfl
  | cons e rest ih =>
      obtain ⟨k, v, t⟩ := e
      by_cases h : k = key
      · simp [delK, h, ih]
      · simp [delK, getK, h, ih]

@[simp] theorem getK_setK_same {α : Type} (c : KV α) (key : String)
    (v : α) (ttl : Nat) : getK (setK c key v ttl) key = some v := by
  simp [setK, getK]

theorem getK_delK_ne {α : Type} (c : KV α) {key key' : String}
    (h : key' ≠ key) : getK (delK c key) key' = getK c key' := by
  induction c with
  | nil => rfl
  | cons e rest ih =>
      obtain ⟨k, v, t⟩ := e
      by_cases hk : k = key
      · subst hk
        simp [delK, getK, Ne.symm h, ih]
      · simp only [delK, getK, hk, if_false]
        by_cases hk' : k = key'
        · simp [getK, hk']
        · simp [getK, hk', ih]

theorem getK_setK_ne {α : Type} (c : KV α) {key key' : String}
    (v : α) (ttl : Nat) (h : key' ≠ key) :
    getK (setK c key v ttl) key' = getK c key' := by
  simp [setK, getK, Ne.symm h, getK_delK_ne c h]

/-- Cache key for a durable entity mirror: `entity:<id>`. -/
def entityKey (id : Nat) : String := "entity:" ++ toString id

/-- Cache key for an in-progress wizard record: `temp_entity:<tempId>`. -/
def tempKey (tempId : String) : String := "temp_entity:" ++ tempId

/-! ### The durable store (MongoDB) as a list of entities -/

/-- `Entity.findById`. -/
def findById : List Entity → Nat → Option Entity
  | [], _ => none
  | e :: rest, id => if e.id = id then some e else findById rest id

/-- `Entity.findOne({identificationNumber})`. -/
def findByIdNum : List Entity → String → Option Entity
  | [], _ => none
  | e :: rest, n => if e.identificationNumber = n then some e else findByIdNum rest n

/-- `Entity.findOne({inquiryId})` — stands for the unique index on
`inquiryId` consulted at insert time. -/
def findByInqId : List Entity → String → Option Entity
  | [], _ => none
  | e :: rest, n => if e.inquiryId = n then some e else findByInqId rest n

/-- `entity.save()` / `findByIdAndUpdate`: replace the document with the
matching `_id`. -/
def saveById : List Entity → Entity → List Entity
  | [], _ => []
  | x :: rest, e => (if x.id = e.id then e else x) :: saveById rest e

theorem findById_id_eq {db : List Entity} {id : Nat} {e : Entity}
    (h : findById db id = some e) : e.id = id := by
  induction db with
  | nil => simp [findById] at h
  | cons x rest ih =>
      by_cases hx : x.id = id
      · simp [findById, hx] at h
        subst h
        exact hx
      · simp [findById, hx] at h
        exact ih h

theorem findById_saveById_ne {db : List Entity} {id : Nat} {e2 : Entity}
    (h : e2.id ≠ id) : findById (saveById db e2) id = findById db id := by
  induction db with
  | nil => rfl
  | cons x rest ih =>
      by_cases hx : x.id = e2.id
      · simp [saveById, findById, hx, h, hx ▸ h, ih]
      · simp [saveById, findById, hx, ih]

theorem findById_saveById_eq {db : List Entity} {id : Nat} {e e2 : Entity}
    (hf : findById db id = some e) (h : e2.id = id) :
    findById (saveById db e2) id = some e2 := by
  induction db with
  | nil => simp [findById] at hf
  | cons x rest ih =>
      by_cases hx : x.id = id
      · simp [saveById, findById, hx, h, hx.trans h.symm]
      · have hx2 : x.id ≠ e2.id := fun hc => hx (hc.trans h)
        simp [saveById, findById, hx, hx2, if_neg] at hf ⊢
        exact ih hf

/-! ### System state -/

/-- The whole observable state: the durable store, the source of fresh
ObjectIds, the two cache families (`entity:<id>` mirrors and
`temp_entity:<tempId>` wizard records), the `entities:pending` list cache,
and a log of notification attempts. -/
structure State where
  db : List Entity
  nextId : Nat
  entityCache : KV Entity
  tempCache : KV TempRecord
  pendingCache : Option (List Entity) := none
  emailLog : List String := []
deriving Repr

/-- The message logged for a notification attempt: the try/catch around
`sendApprovalEmail` / `sendRejectionEmail` swallows failures, so success and
failure differ only in what is logged. -/
def notifyMsg (ok : Bool) (kind : String) : String :=
  if ok then kind ++ "_sent" else kind ++ "_failed"

/-- JavaScript truthiness of an optional string, as in
`if (!rejectionReason)`: `undefined` and the empty string are falsy. -/
def truthyStr : Option String → Bool
  | none => false
  | some s => s ≠ ""

/-! ### Results of the entityController handlers (part_004) -/

/-- The typed outcome of a workflow handler: each constructor corresponds to
one of the handler's response branches. -/
inductive WorkflowOut
  | notFound
  | alreadyApproved
  | alreadyRejected
  | invalidTransition
  | missingReason
  | invalidState
  | validationError
  | created (e : Entity)
  | updated (e : Entity)
  | approved (e : Entity)
  | rejected (e : Entity)
deriving DecidableEq, Repr

/-- `Entity.create(data)`: mongoose validation (required `email` and
`address`), the unique indexes on `identificationNumber` and `inquiryId`,
the schema default `status: PENDING`, the array default `documents: []`,
and the pre-save hook that generates `inquiryId` when absent (`genInq` is
the generated `INQ-<timestamp>-<token>` string).  `fresh` is the ObjectId
the store assigns.  Returns `none` when validation or a unique index
rejects the document. -/
def entityCreateModel (db : List Entity) (fresh : Nat) (d : EntityData)
    (genInq : String) : Option Entity :=
  match d.email, d.address with
  | some em, some ad =>
      if (findByIdNum db d.identificationNumber).isSome then none
      else
        let inq := d.inquiryId.getD genInq
        if (findByInqId db inq).isSome then none
        else
          some { id := fresh
                 name := d.name
                 identificationNumber := d.identificationNumber
                 inquiryId := inq
                 email := em
                 phone := d.phone
                 dateOfBirth := d.dateOfBirth
                 address := ad
                 profilePhoto := d.profilePhoto
                 documents := d.documents.getD []
                 status := d.status.getD .PENDING
                 createdBy := d.createdBy
                 additionalData := d.additionalData }
  | _, _ => none

/-- `createEntity` (POST /api/entities): spreads `req.body`, then overrides
`createdBy` with the authenticated user and `status` with `'PENDING'`;
creates the document, write-through caches it under `entity:<id>` for 1800
seconds and prepends it to the `entities:pending` list cache. -/
def createEntity (s : State) (body : EntityData) (actor : Option Nat)
    (genInq : String) : WorkflowOut × State :=
  let d := { body with createdBy := actor, status := some .PENDING }
  match entityCreateModel s.db s.nextId d genInq with
  | none => (.validationError, s)
  | some e =>
      (.created e,
       { s with db := s.db ++ [e]
                nextId := s.nextId + 1
                entityCache := setK s.entityCache (entityKey e.id) e 1800
                pendingCache := some (e :: s.pendingCache.getD []) })

/-- `findByIdAndUpdate(id, req.body)`: $set of every field present in the
body onto the stored document. -/
def applyUpdate (e : Entity) (b : UpdateBody) : Entity :=
  { e with name := b.name.getD e.name
           email := b.email.getD e.email
           phone := match b.phone with | some p => some p | none => e.phone
           dateOfBirth := match b.dateOfBirth with
                          | some d => some d
                          | none => e.dateOfBirth
           address := b.address.getD e.address
           status := b.status.getD e.status
           additionalData := match b.additionalData with
                             | some a => some a
                             | none => e.additionalData }

/-- `updateEntity` (PUT /api/entities/:id): 404 when absent; refuses with
"Cannot update entity that has been approved or rejected" unless the
current status is PENDING or UNDER_REVIEW; otherwise applies `req.body`
via `findByIdAndUpdate` and refreshes the `entity:<id>` cache mirror. -/
def updateEntity (s : State) (id : Nat) (b : UpdateBody) :
    WorkflowOut × State :=
  match findById s.db id with
  | none => (.notFound, s)
  | some e =>
      if e.status = .PENDING ∨ e.status = .UNDER_REVIEW then
        let e2 := applyUpdate e b
        (.updated e2,
         { s with db := saveById s.db e2
                  entityCache := setK s.entityCache (entityKey id) e2 1800 })
      else (.invalidState, s)

/-- `approveEntity` (PUT /api/entities/:id/approve): 404 when absent;
`AlreadyApproved` when status is APPROVED; `InvalidTransition` when status
is REJECTED; otherwise sets status/approvedBy/approvalDate/approvalNotes,
saves, refreshes the cache mirror, and attempts the approval email —
`emailOk` records whether that attempt succeeds, and its failure is only
logged. -/
def approveEntity (s : State) (id actor : Nat) (notes : Option String)
    (now : Nat) (emailOk : Bool) : WorkflowOut × State :=
  match findById s.db id with
  | none => (.notFound, s)
  | some e =>
      if e.status = .APPROVED then (.alreadyApproved, s)
      else if e.status = .REJECTED then (.invalidTransition, s)
      else
        let e2 := { e with status := .APPROVED
                           approvedBy := some actor
                           approvalDate := some now
                           approvalNotes := notes }
        (.approved e2,
         { s with db := saveById s.db e2
                  entityCache := setK s.entityCache (entityKey id) e2 1800
                  emailLog := notifyMsg emailOk "approval" :: s.emailLog })

/-- `rejectEntity` (PUT /api/entities/:id/reject): `MissingReason` when the
reason is absent or empty (checked before the lookup); 404 when absent;
`AlreadyRejected` when status is REJECTED; `InvalidTransition` when status
is APPROVED; otherwise sets status/rejectedBy/rejectionDate/rejectionReason,
saves, refreshes the cache mirror, and attempts the rejection email. -/
def rejectEntity (s : State) (id actor : Nat) (reason : Option String)
    (now : Nat) (emailOk : Bool) : WorkflowOut × State :=
  if truthyStr reason = false then (.missingReason, s)
  else
    match findById s.db id with
    | none => (.notFound, s)
    | some e =>
        if e.status = .REJECTED then (.alreadyRejected, s)
        else if e.status = .APPROVED then (.invalidTransition, s)
        else
          let e2 := { e with status := .REJECTED
                             rejectedBy := some actor
                             rejectionDate := some now
                             rejectionReason := reason }
          (.rejected e2,
           { s with db := saveById s.db e2
                    entityCache := setK s.entityCache (entityKey id) e2 1800
                    emailLog := notifyMsg emailOk "rejection" :: s.emailLog })

/-! ### Results of the entityStepsController handlers (part_005) -/

/-- Typed outcome of a step-wizard handler. -/
inductive StepOut
  | duplicateIdentifier
  | sessionExpired
  | createdTemp (tempId : String)
  | stepSaved (step : Nat) (nextStep : Nat)
  | finalized (e : Entity)
  | validationError
  | progress (currentStep totalSteps : Nat) (completedSteps : List String)
      (pct : Nat) (nextStep : Option Nat)
  | cancelled
deriving DecidableEq, Repr

/-- `createEntityStep1`: rejects a duplicate `identificationNumber` against
the durable store; otherwise builds the temp record with `step=1`,
`completedSteps=["basic_info"]`, `status='PENDING'`, and stores it under
`temp_entity:<tempId>` for 1800 seconds.  `tempId` stands for the generated
`temp_entity_<timestamp>_<token>` string. -/
def createEntityStep1 (s : State) (name idNum : String)
    (createdBy : Option Nat) (tempId : String) : StepOut × State :=
  if (findByIdNum s.db idNum).isSome then (.duplicateIdentifier, s)
  else
    let r : TempRecord :=
      { name := name
        identificationNumber := idNum
        createdBy := createdBy
        status := .PENDING
        step := 1
        completedSteps := ["basic_info"] }
    (.createdTemp tempId,
     { s with tempCache := setK s.tempCache (tempKey tempId) r 1800 })

/-- `createEntityStep2` (contact): `SessionExpired` when the temp record is
absent; otherwise overwrites email/phone/dateOfBirth with the request's
values, sets `step=2`, appends `"contact_info"`, and rewrites the cache
entry with a fresh 1800-second TTL. -/
def createEntityStep2 (s : State) (tempId : String) (email phone : Option String)
    (dateOfBirth : Option Nat) : StepOut × State :=
  match getK s.tempCache (tempKey tempId) with
  | none => (.sessionExpired, s)
  | some r =>
      let r2 := { r with email := email
                         phone := phone
                         dateOfBirth := dateOfBirth
                         step := 2
                         completedSteps := r.completedSteps ++ ["contact_info"] }
      (.stepSaved 2 3,
       { s with tempCache := setK s.tempCache (tempKey tempId) r2 1800 })

/-- `createEntityStep3` (address): same contract; sets `step=3` and appends
`"address_info"`. -/
def createEntityStep3 (s : State) (tempId : String) (address : Option Address) :
    StepOut × State :=
  match getK s.tempCache (tempKey tempId) with
  | none => (.sessionExpired, s)
  | some r =>
      let r2 := { r with address := address
                         step := 3
                         completedSteps := r.completedSteps ++ ["address_info"] }
      (.stepSaved 3 4,
       { s with tempCache := setK s.tempCache (tempKey tempId) r2 1800 })

/-- `createEntityStep4` (profile photo): sets `step=4` and appends
`"profile_photo"`. -/
def createEntityStep4 (s : State) (tempId : String) (photo : Option Doc) :
    StepOut × State :=
  match getK s.tempCache (tempKey tempId) with
  | none => (.sessionExpired, s)
  | some r =>
      let r2 := { r with profilePhoto := photo
                         step := 4
                         completedSteps := r.completedSteps ++ ["profile_photo"] }
      (.stepSaved 4 5,
       { s with tempCache := setK s.tempCache (tempKey tempId) r2 1800 })

/-- `createEntityStep5` (documents): stores `documents || []`, sets
`step=5`, appends `"documents"`. -/
def createEntityStep5 (s : State) (tempId : String) (docs : Option (List Doc)) :
    StepOut × State :=
  match getK s.tempCache (tempKey tempId) with
  | none => (.sessionExpired, s)
  | some r =>
      let r2 := { r with documents := some (docs.getD [])
                         step := 5
                         completedSteps := r.completedSteps ++ ["documents"] }
      (.stepSaved 5 6,
       { s with tempCache := setK s.tempCache (tempKey tempId) r2 1800 })

/-- The `finalEntityData` built by `createEntityStep6`: the temp record with
the workflow-only fields `step` and `completedSteps` destructured away, plus
`additionalData` when present. -/
def finalData (r : TempRecord) (additionalData : Option String) : EntityData :=
  { name := r.name
    identificationNumber := r.identificationNumber
    email := r.email
    phone := r.phone
    dateOfBirth := r.dateOfBirth
    address := r.address
    profilePhoto := r.profilePhoto
    documents := r.documents
    status := some r.status
    createdBy := r.createdBy
    additionalData := additionalData }

/-- `createEntityStep6` (finalize): `SessionExpired` when the temp record is
absent; otherwise strips `step`/`completedSteps`, merges `additionalData`
when present, creates the durable entity, write-through caches it under
`entity:<id>`, and deletes the `temp_entity:<tempId>` record.  A mongoose
validation or unique-index failure aborts before any cache write. -/
def createEntityStep6 (s : State) (tempId : String)
    (additionalData : Option String) (genInq : String) : StepOut × State :=
  match getK s.tempCache (tempKey tempId) with
  | none => (.sessionExpired, s)
  | some r =>
      match entityCreateModel s.db s.nextId (finalData r additionalData) genInq with
      | none => (.validationError, s)
      | some e =>
          (.finalized e,
           { s with db := s.db ++ [e]
                    nextId := s.nextId + 1
                    entityCache := setK s.entityCache (entityKey e.id) e 1800
                    tempCache := delK s.tempCache (tempKey tempId) })

/-- `getEntityProgress`: `SessionExpired` when absent; otherwise reports
`currentStep = step || 1`, `totalSteps = 6`,
`progress = round(100 * completedSteps.length / 6)` and
`nextStep = currentStep + 1` (null at 6). -/
def getEntityProgress (s : State) (tempId : String) : StepOut × State :=
  match getK s.tempCache (tempKey tempId) with
  | none => (.sessionExpired, s)
  | some r =>
      let cur := if r.step = 0 then 1 else r.step
      (.progress cur 6 r.completedSteps
         ((100 * r.completedSteps.length + 3) / 6)
         (if cur < 6 then some (cur + 1) else none), s)

/-- `cancelEntityCreation`: unconditionally deletes the temp record. -/
def cancelEntityCreation (s : State) (tempId : String) : StepOut × State :=
  (.cancelled, { s with tempCache := delK s.tempCache (tempKey tempId) })

/-! ### Sequences of approval-workflow operations -/

/-- One call to the approval workflow: approve, reject or update, with all
of its request parameters. -/
inductive Op
  | approve (id actor : Nat) (notes : Option String) (now : Nat) (emailOk : Bool)
  | reject (id actor : Nat) (reason : Option String) (now : Nat) (emailOk : Bool)
  | update (id : Nat) (b : UpdateBody)

/-- The state after one workflow call. -/
def applyOp (s : State) : Op → State
  | .approve id a n now ok => (approveEntity s id a n now ok).2
  | .reject id a r now ok => (rejectEntity s id a r now ok).2
  | .update id b => (updateEntity s id b).2

/-- The state after a sequence of workflow calls. -/
def runOps : State → List Op → State
  | s, [] => s
  | s, o :: rest => runOps (applyOp s o) rest

theorem applyOp_preserves_terminal (s : State) (o : Op) (id : Nat)
    (e : Entity) (hf : findById s.db id = some e)
    (ht : e.status = Status.APPROVED ∨ e.status = Status.REJECTED) :
    findById (applyOp s o).db id = some e := by
  have hterm : ¬ (e.status = Status.PENDING ∨ e.status = Status.UNDER_REVIEW) := by
    rcases ht with h | h <;> simp [h]
  cases o with
  | approve id' a n now ok =>
      cases hfind : findById s.db id' with
      | none =>
          simp only [applyOp, approveEntity, hfind]
          exact hf
      | some e' =>
          simp only [applyOp, approveEntity, hfind]
          by_cases h1 : e'.status = Status.APPROVED
          · simp only [if_pos h1]
            exact hf
          · simp only [if_neg h1]
            by_cases h2 : e'.status = Status.REJECTED
            · simp only [if_pos h2]
              exact hf
            · simp only [if_neg h2]
              by_cases he : id' = id
              · subst he
                rw [hfind] at hf
                cases hf
                rcases ht with h | h
                · exact absurd h h1
                · exact absurd h h2
              · have hid : e'.id = id' := findById_id_eq hfind
                exact (findById_saveById_ne fun hc =>
                  he (by simpa only [hid] using hc)).trans hf
  | reject id' a r now ok =>
      by_cases hr : truthyStr r = false
      · simp only [applyOp, rejectEntity, if_pos hr]
        exact hf
      · cases hfind : findById s.db id' with
        | none =>
            simp only [applyOp, rejectEntity, if_neg hr, hfind]
            exact hf
        | some e' =>
            simp only [applyOp, rejectEntity, if_neg hr, hfind]
            by_cases h1 : e'.status = Status.REJECTED
            · simp only [if_pos h1]
              exact hf
            · simp only [if_neg h1]
              by_cases h2 : e'.status = Status.APPROVED
              · simp only [if_pos h2]
                exact hf
              · simp only [if_neg h2]
                by_cases he : id' = id
                · subst he
                  rw [hfind] at hf
                  cases hf
                  rcases ht with h | h
                  · exact absurd h h2
                  · exact absurd h h1
                · have hid : e'.id = id' := findById_id_eq hfind
                  exact (findById_saveById_ne fun hc =>
                    he (by simpa only [hid] using hc)).trans hf
  | update id' b =>
      cases hfind : findById s.db id' with
      | none =>
          simp only [applyOp, updateEntity, hfind]
          exact hf
      | some e' =>
          simp only [applyOp, updateEntity, hfind]
          by_cases h1 : e'.status = Status.PENDING ∨ e'.status = Status.UNDER_REVIEW
          · simp only [if_pos h1]
            by_cases he : id' = id
            · subst he
              rw [hfind] at hf
              cases hf
              exact absurd h1 hterm
            · have hid : e'.id = id' := findById_id_eq hfind
              exact (findById_saveById_ne fun hc =>
                he (by simpa only [applyUpdate, hid] using hc)).trans hf
          · simp only [if_neg h1]
            exact hf

/-- **C1.** Terminal-state invariant: if the entity stored under `id` has
status APPROVED or REJECTED, then after any sequence of
approve/reject/update calls the stored entity is literally unchanged — in
particular its status never changes, so a REJECTED entity never becomes
APPROVED and an APPROVED entity never becomes REJECTED. -/
theorem terminal_status_is_stable (ops : List Op) (s : State) (id : Nat)
    (e : Entity) (hf : findById s.db id = some e)
    (ht : e.status = Status.APPROVED ∨ e.status = Status.REJECTED) :
    findById (runOps s ops).db id = some e := by
  induction ops generalizing s with
  | nil => exact hf
  | cons o rest ih =>
      exact ih (applyOp s o) (applyOp_preserves_terminal s o id e hf ht)

/-! ### Concrete fixtures for witnesses and counterexamples -/

/-- A concrete address record. -/
def exAddr : Address :=
  { street := "456 Oak Ave", city := "LA", state := "CA", country := "USA",
    postalCode := "90210" }

/-- A concrete APPROVED entity. -/
def exApproved : Entity :=
  { id := 1, name := "Jane Smith", identificationNumber := "ID789456123",
    inquiryId := "INQ-1", email := "jane@x.com", address := exAddr,
    status := .APPROVED }

/-- A concrete REJECTED entity. -/
def exRejected : Entity :=
  { id := 2, name := "Bob Stone", identificationNumber := "ID222",
    inquiryId := "INQ-2", email := "bob@x.com", address := exAddr,
    status := .REJECTED }

/-- A concrete PENDING entity. -/
def exPending : Entity :=
  { id := 3, name := "Ana Ray", identificationNumber := "ID333",
    inquiryId := "INQ-3", email := "ana@x.com", address := exAddr,
    status := .PENDING }

/-- A concrete store state holding one entity in each relevant status. -/
def exState : State :=
  { db := [exApproved, exRejected, exPending], nextId := 10,
    entityCache := [], tempCache := [] }

/-- Witness for C1 at a concrete input: the APPROVED entity with id 1
survives a reject, an approve, and a status-bearing update untouched. -/
theorem terminal_status_is_stable_witness :
    findById (runOps exState
      [Op.reject 1 7 (some "bad data") 100 true,
       Op.approve 1 7 none 101 false,
       Op.update 1 { status := some Status.REJECTED }]).db 1 = some exApproved :=
  terminal_status_is_stable _ exState 1 exApproved rfl (Or.inl rfl)

/-- **C2.** Approve on an APPROVED entity returns AlreadyApproved and
reject on it returns InvalidTransition; approve on a REJECTED entity
returns InvalidTransition and reject on it returns AlreadyRejected; in all
four cases the state (hence the entity) is unchanged.  The reject cases
assume a non-empty rejection reason, since the handler checks the reason
before the status. -/
theorem approve_reject_conflict_cases (s : State) (id actor : Nat)
    (notes reason : Option String) (now : Nat) (ok : Bool) (e : Entity)
    (hf : findById s.db id = some e) (hreason : truthyStr reason = true) :
    (e.status = Status.APPROVED →
       approveEntity s id actor notes now ok = (.alreadyApproved, s) ∧
       rejectEntity s id actor reason now ok = (.invalidTransition, s)) ∧
    (e.status = Status.REJECTED →
       approveEntity s id actor notes now ok = (.invalidTransition, s) ∧
       rejectEntity s id actor reason now ok = (.alreadyRejected, s)) := by
  constructor
  · intro h
    constructor
    · simp [approveEntity, hf, h]
    · simp [rejectEntity, hf, h, hreason]
  · intro h
    constructor
    · simp [approveEntity, hf, h]
    · simp [rejectEntity, hf, h, hreason]

/-- Witness for C2: all four conflict cases at concrete entities. -/
theorem approve_reject_conflict_cases_witness :
    approveEntity exState 1 7 none 100 true = (.alreadyApproved, exState) ∧
    rejectEntity exState 1 7 (some "no good") 100 true = (.invalidTransition, exState) ∧
    approveEntity exState 2 7 none 100 true = (.invalidTransition, exState) ∧
    rejectEntity exState 2 7 (some "no good") 100 true = (.alreadyRejected, exState) := by
  have h1 := approve_reject_conflict_cases exState 1 7 none (some "no good")
    100 true exApproved rfl (by decide)
  have h2 := approve_reject_conflict_cases exState 2 7 none (some "no good")
    100 true exRejected rfl (by decide)
  exact ⟨(h1.1 rfl).1, (h1.1 rfl).2, (h2.2 rfl).1, (h2.2 rfl).2⟩

/-- The entity produced by a successful approval: the exact field mutations
performed by `approveEntity` before `entity.save()`. -/
def approvedEntity (e : Entity) (actor : Nat) (notes : Option String)
    (now : Nat) : Entity :=
  { e with status := .APPROVED, approvedBy := some actor,
           approvalDate := some now, approvalNotes := notes }

/-- **C3.** Approving a PENDING or UNDER_REVIEW entity succeeds: it returns
the entity with status=APPROVED, approvedBy=actor, approvalDate=now and
approvalNotes=notes; the updated entity is persisted in the store and the
`entity:<id>` cache mirror is refreshed; and the notification collaborator's
success or failure (`emailOk`) changes nothing but the email log — result,
store and cache are identical for both values. -/
theorem approve_pending_succeeds (s : State) (id actor : Nat)
    (notes : Option String) (now : Nat) (e : Entity)
    (hf : findById s.db id = some e)
    (hs : e.status = Status.PENDING ∨ e.status = Status.UNDER_REVIEW)
    (ok : Bool) :
    approveEntity s id actor notes now ok =
      (WorkflowOut.approved (approvedEntity e actor notes now),
       { s with db := saveById s.db (approvedEntity e actor notes now)
                entityCache := setK s.entityCache (entityKey id)
                  (approvedEntity e actor notes now) 1800
                emailLog := notifyMsg ok "approval" :: s.emailLog }) ∧
    findById (approveEntity s id actor notes now ok).2.db id =
      some (approvedEntity e actor notes now) ∧
    getK (approveEntity s id actor notes now ok).2.entityCache (entityKey id) =
      some (approvedEntity e actor notes now) ∧
    (approveEntity s id actor notes now true).1 =
      (approveEntity s id actor notes now false).1 ∧
    (approveEntity s id actor notes now true).2.db =
      (approveEntity s id actor notes now false).2.db ∧
    (approveEntity s id actor notes now true).2.entityCache =
      (approveEntity s id actor notes now false).2.entityCache := by
  have h1 : e.status ≠ Status.APPROVED := by rcases hs with h | h <;> simp [h]
  have h2 : e.status ≠ Status.REJECTED := by rcases hs with h | h <;> simp [h]
  have hid : (approvedEntity e actor notes now).id = id := by
    simpa [approvedEntity] using findById_id_eq hf
  have heq : ∀ b : Bool, approveEntity s id actor notes now b =
      (WorkflowOut.approved (approvedEntity e actor notes now),
       { s with db := saveById s.db (approvedEntity e actor notes now)
                entityCache := setK s.entityCache (entityKey id)
                  (approvedEntity e actor notes now) 1800
                emailLog := notifyMsg b "approval" :: s.emailLog }) := by
    intro b
    simp only [approveEntity, hf, if_neg h1, if_neg h2, approvedEntity]
  refine ⟨heq ok, ?_, ?_, ?_, ?_, ?_⟩
  · rw [heq ok]
    exact findById_saveById_eq hf hid
  · rw [heq ok]
    exact getK_setK_same _ _ _ _
  · rw [heq true, heq false]
  · rw [heq true, heq false]
  · rw [heq true, heq false]

/-- Witness for C3: approving the concrete PENDING entity with a failing
notification collaborator still commits the approval. -/
theorem approve_pending_succeeds_witness :
    approveEntity exState 3 7 (some "verified") 100 false =
      (WorkflowOut.approved (approvedEntity exPending 7 (some "verified") 100),
       { exState with
           db := saveById exState.db (approvedEntity exPending 7 (some "verified") 100)
           entityCache := setK exState.entityCache (entityKey 3)
             (approvedEntity exPending 7 (some "verified") 100) 1800
           emailLog := notifyMsg false "approval" :: exState.emailLog }) :=
  (approve_pending_succeeds exState 3 7 (some "verified") 100 exPending rfl
    (Or.inl rfl) false).1

/-- **C4.** Rejecting with an absent or empty rejectionReason returns
MissingReason and leaves the whole state — in particular the entity and
every one of its fields — unchanged, for every entity id. -/
theorem reject_missing_reason (s : State) (id actor : Nat)
    (reason : Option String) (now : Nat) (ok : Bool)
    (hr : reason = none ∨ reason = some "") :
    rejectEntity s id actor reason now ok = (.missingReason, s) := by
  have h : truthyStr reason = false := by
    rcases hr with h | h <;> simp [h, truthyStr]
  simp [rejectEntity, h]

/-- Witness for C4 at concrete inputs: absent and empty reasons. -/
theorem reject_missing_reason_witness :
    rejectEntity exState 3 7 none 100 true = (.missingReason, exState) ∧
    rejectEntity exState 3 7 (some "") 100 true = (.missingReason, exState) :=
  ⟨reject_missing_reason exState 3 7 none 100 true (Or.inl rfl),
   reject_missing_reason exState 3 7 (some "") 100 true (Or.inr rfl)⟩

/-- The in-progress record written by step 1. -/
def step1Record (name idNum : String) (actor : Option Nat) : TempRecord :=
  { name := name, identificationNumber := idNum, createdBy := actor,
    status := .PENDING, step := 1, completedSteps := ["basic_info"] }

/-- **C5.** Step 1 with an identificationNumber already held by a durable
entity returns DuplicateIdentifier and leaves the state — in particular the
temp cache — untouched; otherwise it returns the fresh temporary id and
stores an in-progress record with step=1 and completedSteps=["basic_info"]
under `temp_entity:<tempId>`. -/
theorem step1_duplicate_or_create (s : State) (name idNum : String)
    (actor : Option Nat) (tempId : String) :
    ((findByIdNum s.db idNum).isSome = true →
       createEntityStep1 s name idNum actor tempId = (.duplicateIdentifier, s)) ∧
    ((findByIdNum s.db idNum).isSome = false →
       createEntityStep1 s name idNum actor tempId =
         (.createdTemp tempId,
          { s with tempCache := (setK s.tempCache (tempKey tempId)
              (step1Record name idNum actor) 1800) }) ∧
       getK (createEntityStep1 s name idNum actor tempId).2.tempCache
           (tempKey tempId) =
         some (step1Record name idNum actor)) := by
  constructor
  · intro h
    simp [createEntityStep1, h]
  · intro h
    constructor
    · simp [createEntityStep1, step1Record, h]
    · simp [createEntityStep1, step1Record, h]

/-- Witness for C5: the duplicate branch at an existing id number and the
success branch at a fresh one. -/
theorem step1_duplicate_or_create_witness :
    createEntityStep1 exState "Jane Smith" "ID789456123" (some 7) "tmp1" =
      (.duplicateIdentifier, exState) ∧
    getK (createEntityStep1 exState "New Person" "ID900" (some 7) "tmp1").2.tempCache
        (tempKey "tmp1") =
      some (step1Record "New Person" "ID900" (some 7)) :=
  ⟨(step1_duplicate_or_create exState "Jane Smith" "ID789456123" (some 7)
      "tmp1").1 (by decide),
   ((step1_duplicate_or_create exState "New Person" "ID900" (some 7)
      "tmp1").2 (by decide)).2⟩

/-- **C6.** Every step or progress call with a tempId that has no
in-progress record returns SessionExpired and returns the state unchanged:
no cache entry is written or deleted and no durable entity is created. -/
theorem steps_session_expired (s : State) (tempId : String)
    (email phone : Option String) (dob : Option Nat) (addr : Option Address)
    (photo : Option Doc) (docs : Option (List Doc))
    (addl : Option String) (genInq : String)
    (h : getK s.tempCache (tempKey tempId) = none) :
    createEntityStep2 s tempId email phone dob = (.sessionExpired, s) ∧
    createEntityStep3 s tempId addr = (.sessionExpired, s) ∧
    createEntityStep4 s tempId photo = (.sessionExpired, s) ∧
    createEntityStep5 s tempId docs = (.sessionExpired, s) ∧
    createEntityStep6 s tempId addl genInq = (.sessionExpired, s) ∧
    getEntityProgress s tempId = (.sessionExpired, s) := by
  refine ⟨?_, ?_, ?_, ?_, ?_, ?_⟩ <;>
    simp [createEntityStep2, createEntityStep3, createEntityStep4,
      createEntityStep5, createEntityStep6, getEntityProgress, h]

/-- Witness for C6: an unknown tempId against the concrete state, whose
temp cache is empty. -/
theorem steps_session_expired_witness :
    createEntityStep2 exState "ghost" (some "a@x.com") none none =
      (.sessionExpired, exState) ∧
    createEntityStep3 exState "ghost" (some exAddr) = (.sessionExpired, exState) ∧
    createEntityStep4 exState "ghost" none = (.sessionExpired, exState) ∧
    createEntityStep5 exState "ghost" none = (.sessionExpired, exState) ∧
    createEntityStep6 exState "ghost" none "INQ-9" = (.sessionExpired, exState) ∧
    getEntityProgress exState "ghost" = (.sessionExpired, exState) :=
  steps_session_expired exState "ghost" (some "a@x.com") none none
    (some exAddr) none none none "INQ-9" rfl

/-- An update body that smuggles a terminal status: the validation
middleware checks only the listed fields and strips nothing, so this body
reaches `findByIdAndUpdate` intact. -/
def exStatusBody : UpdateBody := { status := some Status.APPROVED }

/-- Counterexample to C9: `updateEntity` on the concrete PENDING entity
with a body carrying `status: 'APPROVED'` succeeds and the resulting
entity's status is APPROVED — refuting "the resulting status is never
APPROVED or REJECTED".  The claim's first half (the guard on terminal
entities) is untouched. -/
theorem update_can_set_terminal_status :
    (findById exState.db 3).map Entity.status = some Status.PENDING ∧
    (updateEntity exState 3 exStatusBody).1 =
      WorkflowOut.updated (applyUpdate exPending exStatusBody) ∧
    (applyUpdate exPending exStatusBody).status = Status.APPROVED :=
  ⟨rfl, rfl, rfl⟩

/-- **C9 (amended).** `updateEntity` on an APPROVED or REJECTED entity
returns InvalidState and leaves the state (hence every field of the entity)
unchanged; an update succeeds only when the prior status is PENDING or
UNDER_REVIEW, and the resulting entity is the stored one with the body's
fields applied — so its status is the status supplied in the body when
present (which may be APPROVED or REJECTED), and the prior status
otherwise. -/
theorem update_invalid_state_and_result (s : State) (id : Nat)
    (b : UpdateBody) (e : Entity) (hf : findById s.db id = some e) :
    ((e.status = Status.APPROVED ∨ e.status = Status.REJECTED) →
       updateEntity s id b = (.invalidState, s)) ∧
    (∀ e', (updateEntity s id b).1 = .updated e' →
       (e.status = Status.PENDING ∨ e.status = Status.UNDER_REVIEW) ∧
       e' = applyUpdate e b ∧ e'.status = b.status.getD e.status) := by
  constructor
  · intro h
    have hng : ¬ (e.status = Status.PENDING ∨ e.status = Status.UNDER_REVIEW) := by
      rcases h with h | h <;> simp [h]
    simp [updateEntity, hf, hng]
  · intro e' h
    by_cases hg : e.status = Status.PENDING ∨ e.status = Status.UNDER_REVIEW
    · simp only [updateEntity, hf, if_pos hg] at h
      cases h
      exact ⟨hg, rfl, by simp [applyUpdate]⟩
    · simp [updateEntity, hf, hg] at h

/-- Witness for C9 (amended): the guard branch at the concrete APPROVED
entity and the success branch at the concrete PENDING entity. -/
theorem update_invalid_state_and_result_witness :
    updateEntity exState 1 exStatusBody = (.invalidState, exState) ∧
    ((exPending.status = Status.PENDING ∨ exPending.status = Status.UNDER_REVIEW) ∧
     applyUpdate exPending exStatusBody = applyUpdate exPending exStatusBody ∧
     (applyUpdate exPending exStatusBody).status =
       exStatusBody.status.getD exPending.status) :=
  ⟨(update_invalid_state_and_result exState 1 exStatusBody exApproved rfl).1
     (Or.inl rfl),
   (update_invalid_state_and_result exState 3 exStatusBody exPending rfl).2
     (applyUpdate exPending exStatusBody) rfl⟩

/-- A creation payload in which the client attempts to be born REJECTED. -/
def exBody : EntityData :=
  { name := "New Person", identificationNumber := "ID900",
    email := some "new@x.com", address := some exAddr,
    status := some .REJECTED }

theorem entityCreateModel_status {db : List Entity} {fresh : Nat}
    {d : EntityData} {g : String} {e : Entity}
    (h : entityCreateModel db fresh d g = some e) :
    e.status = d.status.getD .PENDING := by
  cases hem : d.email with
  | none => simp [entityCreateModel, hem] at h
  | some em =>
      cases had : d.address with
      | none => simp [entityCreateModel, hem, had] at h
      | some ad =>
          simp only [entityCreateModel, hem, had] at h
          by_cases h1 : (findByIdNum db d.identificationNumber).isSome = true
          · simp [h1] at h
          · simp only [h1, if_false, Bool.not_eq_true] at h
            by_cases h2 : (findByInqId db (d.inquiryId.getD g)).isSome = true
            · simp [h2] at h
            · simp only [h2, if_false, Bool.not_eq_true] at h
              cases h
              rfl

/-- **C10.** `createEntity` overrides any client-supplied status: whenever
it succeeds, the entity it stores (appended to the durable store and
returned) has status PENDING, for every creation payload — including one
whose `status` field says REJECTED. -/
theorem createEntity_status_pending (s : State) (body : EntityData)
    (actor : Option Nat) (genInq : String) (e : Entity)
    (h : (createEntity s body actor genInq).1 = .created e) :
    e.status = Status.PENDING ∧
    (createEntity s body actor genInq).2.db = s.db ++ [e] := by
  cases hm : entityCreateModel s.db s.nextId
      { body with createdBy := actor, status := some .PENDING } genInq with
  | none => simp [createEntity, hm] at h
  | some e0 =>
      have he : e0 = e := by simpa [createEntity, hm] using h
      subst he
      refine ⟨?_, by simp [createEntity, hm]⟩
      simpa using entityCreateModel_status hm

/-- Witness for C10: the concrete payload asking for REJECTED is stored as
PENDING. -/
theorem createEntity_status_pending_witness :
    ((createEntity exState exBody (some 7) "INQ-9").1 =
       WorkflowOut.created
         ((createEntity exState exBody (some 7) "INQ-9").2.db.getLast?.getD
            exPending)) ∧
    ((createEntity exState exBody (some 7) "INQ-9").2.db.getLast?.getD
        exPending).status = Status.PENDING := by
  refine ⟨rfl, ?_⟩
  exact (createEntity_status_pending exState exBody (some 7) "INQ-9" _ rfl).1

/-! ### The six-step wizard end to end -/

/-- Steps 1 through 6 run in order against the same tempId. -/
def runSteps (s : State) (name idNum : String) (actor : Option Nat)
    (tempId : String) (email : String) (phone : Option String)
    (dob : Option Nat) (addr : Address) (photo : Option Doc)
    (docs : Option (List Doc)) (addl : Option String) (genInq : String) :
    StepOut × State :=
  let s1 := (createEntityStep1 s name idNum actor tempId).2
  let s2 := (createEntityStep2 s1 tempId (some email) phone dob).2
  let s3 := (createEntityStep3 s2 tempId (some addr)).2
  let s4 := (createEntityStep4 s3 tempId photo).2
  let s5 := (createEntityStep5 s4 tempId docs).2
  createEntityStep6 s5 tempId addl genInq

/-- The durable entity a full wizard run should produce: the union of the
step inputs, with `step`/`completedSteps` stripped, `additionalData` merged
in, status PENDING, the generated inquiry id, and the store-assigned id. -/
def finalEntity (s : State) (name idNum : String) (actor : Option Nat)
    (email : String) (phone : Option String) (dob : Option Nat)
    (addr : Address) (photo : Option Doc) (docs : Option (List Doc))
    (addl : Option String) (genInq : String) : Entity :=
  { id := s.nextId, name := name, identificationNumber := idNum,
    inquiryId := genInq, email := email, phone := phone, dateOfBirth := dob,
    address := addr, profilePhoto := photo, documents := docs.getD [],
    status := .PENDING, createdBy := actor, additionalData := addl }

/-- **C7.** A valid step sequence 1→6 on the same tempId finalizes into a
durable entity whose fields are exactly the union of the step inputs with
the workflow-only fields stripped and `additionalData` merged in, with
status PENDING; the entity is appended to the durable store and
write-through cached, and the in-progress record is gone afterward. -/
theorem full_wizard_finalizes (s : State) (name idNum : String)
    (actor : Option Nat) (tempId : String) (email : String)
    (phone : Option String) (dob : Option Nat) (addr : Address)
    (photo : Option Doc) (docs : Option (List Doc)) (addl : Option String)
    (genInq : String)
    (hdup : findByIdNum s.db idNum = none)
    (hinq : findByInqId s.db genInq = none) :
    (runSteps s name idNum actor tempId email phone dob addr photo docs
        addl genInq).1 =
      .finalized (finalEntity s name idNum actor email phone dob addr photo
        docs addl genInq) ∧
    (runSteps s name idNum actor tempId email phone dob addr photo docs
        addl genInq).2.db =
      s.db ++ [finalEntity s name idNum actor email phone dob addr photo
        docs addl genInq] ∧
    getK (runSteps s name idNum actor tempId email phone dob addr photo docs
        addl genInq).2.tempCache (tempKey tempId) = none ∧
    getK (runSteps s name idNum actor tempId email phone dob addr photo docs
        addl genInq).2.entityCache (entityKey s.nextId) =
      some (finalEntity s name idNum actor email phone dob addr photo docs
        addl genInq) := by
  refine ⟨?_, ?_, ?_, ?_⟩ <;>
    simp [runSteps, createEntityStep1, createEntityStep2, createEntityStep3,
      createEntityStep4, createEntityStep5, createEntityStep6, step1Record,
      finalData, entityCreateModel, finalEntity, hdup, hinq]

/-- Witness for C7: a concrete full run against the concrete store. -/
theorem full_wizard_finalizes_witness :
    (runSteps exState "New Person" "ID900" (some 7) "t1" "new@x.com" none
        none exAddr none none (some "extra") "INQ-9").1 =
      .finalized (finalEntity exState "New Person" "ID900" (some 7)
        "new@x.com" none none exAddr none none (some "extra") "INQ-9") ∧
    getK (runSteps exState "New Person" "ID900" (some 7) "t1" "new@x.com"
        none none exAddr none none (some "extra") "INQ-9").2.tempCache
      (tempKey "t1") = none :=
  ⟨(full_wizard_finalizes exState "New Person" "ID900" (some 7) "t1"
      "new@x.com" none none exAddr none none (some "extra") "INQ-9"
      (by decide) (by decide)).1,
   (full_wizard_finalizes exState "New Person" "ID900" (some 7) "t1"
      "new@x.com" none none exAddr none none (some "extra") "INQ-9"
      (by decide) (by decide)).2.2.1⟩

/-! ### Per-step merge semantics (steps 2-5) and the step-6 exception -/

/-- A concrete in-progress record whose `step` is already 5, used to show
that steps 2-5 set `step` directly regardless of the previous value. -/
def exTempRec : TempRecord :=
  { name := "Jane Smith", identificationNumber := "ID900",
    createdBy := some 7, status := .PENDING, step := 5,
    completedSteps := ["basic_info", "contact_info", "address_info",
      "profile_photo", "documents"],
    email := some "jane@x.com", address := some exAddr,
    documents := some [] }

/-- A concrete state whose temp cache holds `exTempRec` under tempId t1. -/
def exStepState : State :=
  { db := [], nextId := 20, entityCache := [],
    tempCache := [(tempKey "t1", exTempRec, 1800)] }

/-- Counterexample to C8 at k = 6: on a present in-progress record, step 6
does not merge into the record, set `step = 6`, append a tag, or rewrite
the cache entry with a refreshed expiry — it deletes the record (after
creating the durable entity), so the cache entry is absent afterward. -/
theorem step6_does_not_rewrite_record :
    getK exStepState.tempCache (tempKey "t1") = some exTempRec ∧
    (createEntityStep6 exStepState "t1" none "INQ-20").1 ≠
      StepOut.sessionExpired ∧
    getK (createEntityStep6 exStepState "t1" none "INQ-20").2.tempCache
      (tempKey "t1") = none := by
  refine ⟨rfl, ?_, rfl⟩
  intro h
  simp [createEntityStep6, exStepState, exTempRec, entityCreateModel,
    finalData, getK, setK, findByIdNum, findByInqId] at h

/-- **C8 (amended).** For every in-progress record and k in 2..5, calling
step k merges that step's fields into the record and sets `step = k`
directly, regardless of the record's previous step value — only the
record's existence is required — appends exactly that step's tag to
completedSteps, and rewrites the cache entry with a refreshed 1800-second
expiry.  (Step 6 instead finalizes: it creates the durable entity and
deletes the record.) -/
theorem steps_merge_and_advance (s : State) (tempId : String) (r : TempRecord)
    (email phone : Option String) (dob : Option Nat) (addr : Option Address)
    (photo : Option Doc) (docs : Option (List Doc))
    (h : getK s.tempCache (tempKey tempId) = some r) :
    createEntityStep2 s tempId email phone dob =
      (.stepSaved 2 3, { s with tempCache := (setK s.tempCache (tempKey tempId)
        ({ r with email := email
                  phone := phone
                  dateOfBirth := dob
                  step := 2
                  completedSteps := r.completedSteps ++ ["contact_info"] })
        1800) }) ∧
    createEntityStep3 s tempId addr =
      (.stepSaved 3 4, { s with tempCache := (setK s.tempCache (tempKey tempId)
        ({ r with address := addr
                  step := 3
                  completedSteps := r.completedSteps ++ ["address_info"] })
        1800) }) ∧
    createEntityStep4 s tempId photo =
      (.stepSaved 4 5, { s with tempCache := (setK s.tempCache (tempKey tempId)
        ({ r with profilePhoto := photo
                  step := 4
                  completedSteps := r.completedSteps ++ ["profile_photo"] })
        1800) }) ∧
    createEntityStep5 s tempId docs =
      (.stepSaved 5 6, { s with tempCache := (setK s.tempCache (tempKey tempId)
        ({ r with documents := some (docs.getD [])
                  step := 5
                  completedSteps := r.completedSteps ++ ["documents"] })
        1800) }) := by
  refine ⟨?_, ?_, ?_, ?_⟩ <;>
    simp [createEntityStep2, createEntityStep3, createEntityStep4,
      createEntityStep5, h]

/-- Witness for C8 (amended): calling step 3 on the concrete record whose
step is already 5 — the call succeeds and sets step to 3 directly. -/
theorem steps_merge_and_advance_witness :
    createEntityStep3 exStepState "t1" (some exAddr) =
      (.stepSaved 3 4, { exStepState with
        tempCache := (setK exStepState.tempCache (tempKey "t1")
          ({ exTempRec with address := some exAddr
                            step := 3
                            completedSteps :=
                              exTempRec.completedSteps ++ ["address_info"] })
          1800) }) :=
  (steps_merge_and_advance exStepState "t1" exTempRec none none none
    (some exAddr) none none rfl).2.1

end Persona
